import Mathlib

/-!
Shallow embedding of the FlowEngine configuration-registry backend
(`backend/modules/{datasources,intents,validation_rules}` and
`backend/common/exceptions.py`).

Database tables are lists of rows; a SQLAlchemy query chain
`query(T).filter(...).first()` is `List.find?`, `.all()` is `List.filter`,
and mutating a fetched ORM object followed by `commit()` is a map over the
table replacing the row with the object's primary key.  `Option` fields on
update payloads model pydantic's `exclude_unset` partial-update semantics
(`none` = field absent from the payload).  Python truthiness tests on
string fields (`if payload.name:`) are modelled explicitly: a field is
truthy when it is present and non-empty.

Operations that perform several `db.commit()` calls additionally get a
`...Commits` function returning the list of durably committed snapshots in
order, so that transaction-boundary (atomicity) claims can be stated.
-/

deriving instance DecidableEq for Except

/-- Row of the `eivs.datasources` table (`modules/datasources/models.py`).
Timestamp columns are omitted; no claim mentions them. -/
structure Datasource where
  datasource_id : Nat
  name : String
  datasource_type : String
  connection_key : String
  description : Option String
  tenant_id : String
  is_active : Bool
deriving DecidableEq, Repr

/-- Row of the `eivs.datasource_configs` table. The opaque JSON payloads
(`auth_config`, `connection_json`) are carried as opaque strings. -/
structure DatasourceConfig where
  config_id : Nat
  name : String
  tenant_id : String
  protocol : String
  driver_family : String
  base_url : Option String
  auth_type : Option String
  auth_config : Option String
  connection_json : Option String
  metadata_ref : Option String
  is_active : Bool
  router_base_url : Option String
deriving DecidableEq, Repr

/-- Row of the `eivs.intents` table. -/
structure Intent where
  intent_id : Nat
  intent_code : String
  tenant_id : String
  display_name : String
  description : Option String
  category : Option String
  is_active : Bool
deriving DecidableEq, Repr

/-- Row of the `eivs.intent_policies` table; primary key is the triple
(tenant_id, intent_id, language_code). Confidence decimals are carried as
integers scaled by 100. -/
structure IntentPolicy where
  tenant_id : String
  intent_id : Nat
  language_code : String
  n8n_orchestration_url : Option String
  auto_process_min_conf : Int
  manual_review_min_conf : Int
  reroute_email : Option String
  multi_intent_mode : String
  allow_multi_auto : Bool
  allow_subset_auto : Bool
deriving DecidableEq, Repr

/-- Row of the `eivs.validation_rules` table. -/
structure ValidationRule where
  rule_id : Nat
  intent_id : Nat
  language_code : String
  tenant_id : String
  rule_code : String
  rule_name : String
  rule_description : String
  datasource_id : Nat
  execution_order : Int
  severity : String
  is_active : Bool
deriving DecidableEq, Repr

/-- The whole persisted state: the five tables of the `eivs` schema. -/
structure Db where
  datasources : List Datasource
  configs : List DatasourceConfig
  intents : List Intent
  policies : List IntentPolicy
  rules : List ValidationRule
deriving DecidableEq, Repr

/-- Abstract error kinds of `backend/common/exceptions.py`, plus Python's
bare `ValueError` (which is NOT one of the three HTTPException subclasses
and therefore not translated to a 400-class response). -/
inductive ServiceError where
  | notFound (detail : String)
  | alreadyExists (detail : String)
  | validation (detail : String)
  | valueError (detail : String)
deriving DecidableEq, Repr

/-- True exactly for the `ValidationException` (Invalid, 400-class) kind. -/
def ServiceError.isValidationException : ServiceError → Bool
  | .validation _ => true
  | _ => false

/-- True exactly for Python's generic `ValueError`. -/
def ServiceError.isValueError : ServiceError → Bool
  | .valueError _ => true
  | _ => false

/-- Python truthiness of an optional string field: present and non-empty. -/
def truthy : Option String → Bool
  | none => false
  | some s => !(s == "")

/-- Autoincrement primary key for a new datasource_configs row. -/
def nextConfigId (db : Db) : Nat :=
  (db.configs.map (·.config_id)).foldl max 0 + 1

/-- Autoincrement primary key for a new datasources row. -/
def nextDatasourceId (db : Db) : Nat :=
  (db.datasources.map (·.datasource_id)).foldl max 0 + 1

/-- Autoincrement primary key for a new intents row. -/
def nextIntentId (db : Db) : Nat :=
  (db.intents.map (·.intent_id)).foldl max 0 + 1

/-- Autoincrement primary key for a new validation_rules row. -/
def nextRuleId (db : Db) : Nat :=
  (db.rules.map (·.rule_id)).foldl max 0 + 1

/-! ## Schemas (pydantic payloads, `modules/datasources/schemas.py`) -/

/-- Payload `DatasourceCreate`. -/
structure DatasourceCreate where
  name : String
  datasource_type : String
  connection_key : String
  description : Option String
  tenant_id : String
  is_active : Bool
deriving DecidableEq, Repr

/-- Payload `DatasourceUpdate`; every field optional, `none` = unset. -/
structure DatasourceUpdate where
  name : Option String := none
  datasource_type : Option String := none
  connection_key : Option String := none
  description : Option String := none
  tenant_id : Option String := none
  is_active : Option Bool := none
deriving DecidableEq, Repr

/-- Payload `DatasourceConfigCreate`. -/
structure DatasourceConfigCreate where
  name : String
  protocol : String
  driver_family : String
  base_url : Option String := none
  auth_type : Option String := none
  auth_config : Option String := none
  connection_json : Option String := none
  metadata_ref : Option String := none
  is_active : Bool := true
  router_base_url : Option String := none
  tenant_id : String := "global"
deriving DecidableEq, Repr

/-- Payload `DatasourceConfigUpdate`; every field optional, `none` = unset. -/
structure DatasourceConfigUpdate where
  name : Option String := none
  protocol : Option String := none
  driver_family : Option String := none
  base_url : Option String := none
  auth_type : Option String := none
  auth_config : Option String := none
  connection_json : Option String := none
  metadata_ref : Option String := none
  is_active : Option Bool := none
  router_base_url : Option String := none
  tenant_id : Option String := none
deriving DecidableEq, Repr

/-- Applies `payload.model_dump(exclude_unset=True)` field assignments of a
`DatasourceUpdate` to a fetched row (`DatasourceRepository.update`). -/
def applyDatasourceUpdate (obj : Datasource) (p : DatasourceUpdate) : Datasource :=
  { obj with
    name := p.name.getD obj.name
    datasource_type := p.datasource_type.getD obj.datasource_type
    connection_key := p.connection_key.getD obj.connection_key
    description := match p.description with | some v => some v | none => obj.description
    tenant_id := p.tenant_id.getD obj.tenant_id
    is_active := p.is_active.getD obj.is_active }

/-- Applies a `DatasourceConfigUpdate` to a fetched config row. -/
def applyConfigUpdate (obj : DatasourceConfig) (p : DatasourceConfigUpdate) : DatasourceConfig :=
  { obj with
    name := p.name.getD obj.name
    protocol := p.protocol.getD obj.protocol
    driver_family := p.driver_family.getD obj.driver_family
    base_url := match p.base_url with | some v => some v | none => obj.base_url
    auth_type := match p.auth_type with | some v => some v | none => obj.auth_type
    auth_config := match p.auth_config with | some v => some v | none => obj.auth_config
    connection_json := match p.connection_json with | some v => some v | none => obj.connection_json
    metadata_ref := match p.metadata_ref with | some v => some v | none => obj.metadata_ref
    is_active := p.is_active.getD obj.is_active
    router_base_url := match p.router_base_url with | some v => some v | none => obj.router_base_url
    tenant_id := p.tenant_id.getD obj.tenant_id }

/-! ## Datasource repositories (`modules/datasources/repository.py`) -/

namespace DatasourceRepository

/-- `query(Datasource).filter(tenant, id).first()`. -/
def get_by_id (db : Db) (tenant : String) (datasource_id : Nat) : Option Datasource :=
  db.datasources.find? (fun d => d.tenant_id == tenant && d.datasource_id == datasource_id)

/-- `query(Datasource).filter(tenant, name).first()`. -/
def get_by_name (db : Db) (tenant : String) (name : String) : Option Datasource :=
  db.datasources.find? (fun d => d.tenant_id == tenant && d.name == name)

/-- `DatasourceRepository.update`: fetch by (tenant, id), assign the set
fields, commit. Returns the new db and the updated row. -/
def update (db : Db) (tenant : String) (datasource_id : Nat) (p : DatasourceUpdate) :
    Option (Db × Datasource) :=
  match get_by_id db tenant datasource_id with
  | none => none
  | some obj =>
    let obj2 := applyDatasourceUpdate obj p
    some ({ db with datasources :=
              db.datasources.map (fun d =>
                if d.datasource_id == obj.datasource_id then obj2 else d) },
          obj2)

/-- `DatasourceRepository.delete`: fetch by (tenant, id), delete the row. -/
def delete (db : Db) (tenant : String) (datasource_id : Nat) : Option Db :=
  match get_by_id db tenant datasource_id with
  | none => none
  | some obj =>
    some { db with datasources :=
             db.datasources.filter (fun d => !(d.datasource_id == obj.datasource_id)) }

end DatasourceRepository

namespace DatasourceConfigRepository

/-- `query(DatasourceConfig).filter(tenant, id).first()`. -/
def get_by_id (db : Db) (tenant : String) (config_id : Nat) : Option DatasourceConfig :=
  db.configs.find? (fun c => c.tenant_id == tenant && c.config_id == config_id)

/-- `query(DatasourceConfig).filter(tenant, name).first()`. -/
def get_by_name (db : Db) (tenant : String) (name : String) : Option DatasourceConfig :=
  db.configs.find? (fun c => c.tenant_id == tenant && c.name == name)

/-- `DatasourceConfigRepository.create`: build the row with `tenant_id`
overridden by the path tenant, add it, commit. -/
def create (db : Db) (tenant : String) (p : DatasourceConfigCreate) :
    Db × DatasourceConfig :=
  let obj : DatasourceConfig :=
    { config_id := nextConfigId db
      name := p.name
      tenant_id := tenant
      protocol := p.protocol
      driver_family := p.driver_family
      base_url := p.base_url
      auth_type := p.auth_type
      auth_config := p.auth_config
      connection_json := p.connection_json
      metadata_ref := p.metadata_ref
      is_active := p.is_active
      router_base_url := p.router_base_url }
  ({ db with configs := db.configs ++ [obj] }, obj)

/-- `DatasourceConfigRepository.update`: fetch by (tenant, id), assign the
set fields, commit. -/
def update (db : Db) (tenant : String) (config_id : Nat) (p : DatasourceConfigUpdate) :
    Option (Db × DatasourceConfig) :=
  match get_by_id db tenant config_id with
  | none => none
  | some obj =>
    let obj2 := applyConfigUpdate obj p
    some ({ db with configs :=
              db.configs.map (fun c =>
                if c.config_id == obj.config_id then obj2 else c) },
          obj2)

/-- `DatasourceConfigRepository.delete`: fetch by (tenant, id), delete. -/
def delete (db : Db) (tenant : String) (config_id : Nat) : Option Db :=
  match get_by_id db tenant config_id with
  | none => none
  | some obj =>
    some { db with configs :=
             db.configs.filter (fun c => !(c.config_id == obj.config_id)) }

end DatasourceConfigRepository

/-! ## Datasource services (`modules/datasources/service.py`) -/

namespace DatasourceService

/-- `DatasourceService.get`: 404 when absent for the tenant. -/
def get (db : Db) (tenant : String) (datasource_id : Nat) :
    Except ServiceError Datasource :=
  match DatasourceRepository.get_by_id db tenant datasource_id with
  | none => .error (.notFound "Datasource not found")
  | some obj => .ok obj

/-- `DatasourceService.update`: updates the row; when the payload carries a
truthy `connection_key` different from the previous one, looks up the config
named after the OLD key and, when found, renames it (through the repository,
with no uniqueness pre-check) to the NEW key. -/
def update (db : Db) (tenant : String) (datasource_id : Nat) (p : DatasourceUpdate) :
    Except ServiceError (Db × Datasource) :=
  match DatasourceRepository.get_by_id db tenant datasource_id with
  | none => .error (.notFound "Datasource not found")
  | some existing =>
    let oldKey := existing.connection_key
    match DatasourceRepository.update db tenant datasource_id p with
    | none => .error (.notFound "Datasource not found")
    | some (db1, obj) =>
      match p.connection_key with
      | some newKey =>
        if newKey ≠ "" ∧ newKey ≠ oldKey then
          match DatasourceConfigRepository.get_by_name db1 tenant oldKey with
          | some oldConfig =>
            match DatasourceConfigRepository.update db1 tenant oldConfig.config_id
                { name := some newKey } with
            | some (db2, _) => .ok (db2, obj)
            | none => .ok (db1, obj)
          | none => .ok (db1, obj)
        else .ok (db1, obj)
      | none => .ok (db1, obj)

end DatasourceService

/-- Python truthiness guard `payload.field and payload.field != old`. -/
def wantsNewValue (field : Option String) (old : String) : Bool :=
  truthy field && !(field.getD "" == old)

namespace DatasourceConfigService

/-- `DatasourceConfigService.get`. -/
def get (db : Db) (tenant : String) (config_id : Nat) :
    Except ServiceError DatasourceConfig :=
  match DatasourceConfigRepository.get_by_id db tenant config_id with
  | none => .error (.notFound ("Datasource config with id " ++ toString config_id ++ " not found"))
  | some obj => .ok obj

/-- `DatasourceConfigService.create`: name-uniqueness pre-check, insert the
config (first commit), then repoint every datasource of the tenant whose
`datasource_type` equals the payload `driver_family` (second commit). -/
def create (db : Db) (tenant : String) (p : DatasourceConfigCreate) :
    Except ServiceError (Db × DatasourceConfig) :=
  match DatasourceConfigRepository.get_by_name db tenant p.name with
  | some _ => .error (.alreadyExists
      ("Datasource config with name " ++ p.name ++ " already exists"))
  | none =>
    let created := DatasourceConfigRepository.create db tenant p
    let db1 := created.1
    let db2 := { db1 with datasources :=
        db1.datasources.map (fun d =>
          if d.tenant_id == tenant && d.datasource_type == p.driver_family
          then { d with connection_key := p.name } else d) }
    .ok (db2, created.2)

/-- Durably committed snapshots of `DatasourceConfigService.create`, in
order: `config_repo.create` issues `db.commit()` right after the insert,
and the repointing loop issues a second `db.commit()`. -/
def createCommits (db : Db) (tenant : String) (p : DatasourceConfigCreate) : List Db :=
  match DatasourceConfigRepository.get_by_name db tenant p.name with
  | some _ => []
  | none =>
    let created := DatasourceConfigRepository.create db tenant p
    let db1 := created.1
    let db2 := { db1 with datasources :=
        db1.datasources.map (fun d =>
          if d.tenant_id == tenant && d.datasource_type == p.driver_family
          then { d with connection_key := p.name } else d) }
    [db1, db2]

/-- `DatasourceConfigService.update`: existence check, name-uniqueness
pre-check when the name changes, repository update, then two independent
repoint passes (name change, driver_family change). -/
def update (db : Db) (tenant : String) (config_id : Nat) (p : DatasourceConfigUpdate) :
    Except ServiceError (Db × DatasourceConfig) :=
  match DatasourceConfigRepository.get_by_id db tenant config_id with
  | none => .error (.notFound ("Datasource config with id " ++ toString config_id ++ " not found"))
  | some existing =>
    if wantsNewValue p.name existing.name &&
        (DatasourceConfigRepository.get_by_name db tenant (p.name.getD "")).isSome then
      .error (.alreadyExists
        ("Datasource config with name " ++ p.name.getD "" ++ " already exists"))
    else
      let oldName := existing.name
      let oldDriver := existing.driver_family
      match DatasourceConfigRepository.update db tenant config_id p with
      | none => .error (.notFound ("Datasource config with id " ++ toString config_id ++ " not found"))
      | some (db1, obj) =>
        let db2 :=
          if wantsNewValue p.name oldName then
            { db1 with datasources :=
                db1.datasources.map (fun d =>
                  if d.tenant_id == tenant && d.connection_key == oldName
                  then { d with connection_key := p.name.getD "" } else d) }
          else db1
        let db3 :=
          if wantsNewValue p.driver_family oldDriver then
            { db2 with datasources :=
                db2.datasources.map (fun d =>
                  if d.tenant_id == tenant && d.datasource_type == p.driver_family.getD ""
                  then { d with connection_key := obj.name } else d) }
          else db2
        .ok (db3, obj)

/-- `DatasourceConfigService.delete`: removes only the config row; no
datasource `connection_key` is touched (deliberate, per the source note). -/
def delete (db : Db) (tenant : String) (config_id : Nat) : Except ServiceError Db :=
  match DatasourceConfigRepository.get_by_id db tenant config_id with
  | none => .error (.notFound ("Datasource config with id " ++ toString config_id ++ " not found"))
  | some _ =>
    match DatasourceConfigRepository.delete db tenant config_id with
    | none => .error (.notFound ("Datasource config with id " ++ toString config_id ++ " not found"))
    | some db2 => .ok db2

end DatasourceConfigService

/-! ## Intent schemas (`modules/intents/schemas.py`) -/

/-- Payload `IntentPolicyCreate` (= `IntentPolicyBase`). -/
structure IntentPolicyCreate where
  language_code : String := "multi"
  tenant_id : String := "global"
  n8n_orchestration_url : Option String := none
  auto_process_min_conf : Int
  manual_review_min_conf : Int
  reroute_email : Option String := none
  multi_intent_mode : String := "STRICT_SINGLE"
  allow_multi_auto : Bool := false
  allow_subset_auto : Bool := false
deriving DecidableEq, Repr

/-- Payload `IntentPolicyUpdate`; every field optional, `none` = unset. -/
structure IntentPolicyUpdate where
  language_code : Option String := none
  tenant_id : Option String := none
  n8n_orchestration_url : Option String := none
  auto_process_min_conf : Option Int := none
  manual_review_min_conf : Option Int := none
  reroute_email : Option String := none
  multi_intent_mode : Option String := none
  allow_multi_auto : Option Bool := none
  allow_subset_auto : Option Bool := none
deriving DecidableEq, Repr

/-- Payload `IntentCreate`; `policies` defaults to the empty list. -/
structure IntentCreate where
  intent_code : String
  tenant_id : String := "global"
  display_name : String
  description : Option String := none
  category : Option String := none
  is_active : Bool := true
  policies : List IntentPolicyCreate := []
deriving DecidableEq, Repr

/-- Payload `IntentUpdate`; every field optional, `none` = unset. -/
structure IntentUpdate where
  intent_code : Option String := none
  tenant_id : Option String := none
  display_name : Option String := none
  description : Option String := none
  category : Option String := none
  is_active : Option Bool := none
deriving DecidableEq, Repr

/-- Applies an `IntentUpdate` to a fetched intent row. -/
def applyIntentUpdate (obj : Intent) (p : IntentUpdate) : Intent :=
  { obj with
    intent_code := p.intent_code.getD obj.intent_code
    tenant_id := p.tenant_id.getD obj.tenant_id
    display_name := p.display_name.getD obj.display_name
    description := match p.description with | some v => some v | none => obj.description
    category := match p.category with | some v => some v | none => obj.category
    is_active := p.is_active.getD obj.is_active }

/-- Applies an `IntentPolicyUpdate` to a fetched policy row. -/
def applyIntentPolicyUpdate (obj : IntentPolicy) (p : IntentPolicyUpdate) : IntentPolicy :=
  { obj with
    language_code := p.language_code.getD obj.language_code
    tenant_id := p.tenant_id.getD obj.tenant_id
    n8n_orchestration_url :=
      match p.n8n_orchestration_url with | some v => some v | none => obj.n8n_orchestration_url
    auto_process_min_conf := p.auto_process_min_conf.getD obj.auto_process_min_conf
    manual_review_min_conf := p.manual_review_min_conf.getD obj.manual_review_min_conf
    reroute_email := match p.reroute_email with | some v => some v | none => obj.reroute_email
    multi_intent_mode := p.multi_intent_mode.getD obj.multi_intent_mode
    allow_multi_auto := p.allow_multi_auto.getD obj.allow_multi_auto
    allow_subset_auto := p.allow_subset_auto.getD obj.allow_subset_auto }

/-- Builds the `IntentPolicy` row inserted by `IntentRepository.create` and
`IntentPolicyRepository.create`: `tenant_id` is overridden with the path
tenant and `intent_id` with the owning intent's (flushed) id. -/
def mkIntentPolicy (tenant : String) (intent_id : Nat) (pd : IntentPolicyCreate) : IntentPolicy :=
  { tenant_id := tenant
    intent_id := intent_id
    language_code := pd.language_code
    n8n_orchestration_url := pd.n8n_orchestration_url
    auto_process_min_conf := pd.auto_process_min_conf
    manual_review_min_conf := pd.manual_review_min_conf
    reroute_email := pd.reroute_email
    multi_intent_mode := pd.multi_intent_mode
    allow_multi_auto := pd.allow_multi_auto
    allow_subset_auto := pd.allow_subset_auto }

/-! ## Intent repositories (`modules/intents/repository.py`) -/

namespace IntentRepository

/-- `query(Intent).filter(tenant, id).first()`. -/
def get_by_id (db : Db) (tenant : String) (intent_id : Nat) : Option Intent :=
  db.intents.find? (fun i => i.tenant_id == tenant && i.intent_id == intent_id)

/-- `query(Intent).filter(tenant, code).first()`. -/
def get_by_code (db : Db) (tenant : String) (intent_code : String) : Option Intent :=
  db.intents.find? (fun i => i.tenant_id == tenant && i.intent_code == intent_code)

/-- `IntentRepository.create`: add the intent row, `flush()` (assigning its
id), add one policy row per payload policy with the flushed id, then a
single `commit()` covering the whole unit. -/
def create (db : Db) (tenant : String) (p : IntentCreate) : Db × Intent :=
  let obj : Intent :=
    { intent_id := nextIntentId db
      intent_code := p.intent_code
      tenant_id := tenant
      display_name := p.display_name
      description := p.description
      category := p.category
      is_active := p.is_active }
  let newPolicies := p.policies.map (mkIntentPolicy tenant obj.intent_id)
  ({ db with intents := db.intents ++ [obj], policies := db.policies ++ newPolicies }, obj)

/-- `IntentRepository.update`. -/
def update (db : Db) (tenant : String) (intent_id : Nat) (p : IntentUpdate) :
    Option (Db × Intent) :=
  match get_by_id db tenant intent_id with
  | none => none
  | some obj =>
    let obj2 := applyIntentUpdate obj p
    some ({ db with intents :=
              db.intents.map (fun i => if i.intent_id == obj.intent_id then obj2 else i) },
          obj2)

end IntentRepository

namespace IntentPolicyRepository

/-- `query(IntentPolicy).filter(tenant, intent, language).first()`. -/
def get_by_intent_and_language (db : Db) (tenant : String) (intent_id : Nat)
    (language_code : String) : Option IntentPolicy :=
  db.policies.find? (fun pol =>
    pol.tenant_id == tenant && pol.intent_id == intent_id && pol.language_code == language_code)

/-- `IntentPolicyRepository.update`: fetch by the composite key, assign the
set fields, commit; the row is identified by its old composite key. -/
def update (db : Db) (tenant : String) (intent_id : Nat) (language_code : String)
    (p : IntentPolicyUpdate) : Option (Db × IntentPolicy) :=
  match get_by_intent_and_language db tenant intent_id language_code with
  | none => none
  | some obj =>
    let obj2 := applyIntentPolicyUpdate obj p
    some ({ db with policies :=
              db.policies.map (fun pol =>
                if pol.tenant_id == obj.tenant_id && pol.intent_id == obj.intent_id &&
                    pol.language_code == obj.language_code
                then obj2 else pol) },
          obj2)

end IntentPolicyRepository

/-! ## Intent services (`modules/intents/service.py`) -/

namespace IntentService

/-- `IntentService.get`. -/
def get (db : Db) (tenant : String) (intent_id : Nat) : Except ServiceError Intent :=
  match IntentRepository.get_by_id db tenant intent_id with
  | none => .error (.notFound "Intent not found")
  | some obj => .ok obj

/-- `IntentService.create`: intent_code-uniqueness pre-check, then the
repository create (one transaction for intent plus policies). -/
def create (db : Db) (tenant : String) (p : IntentCreate) :
    Except ServiceError (Db × Intent) :=
  match IntentRepository.get_by_code db tenant p.intent_code with
  | some _ => .error (.alreadyExists
      ("Intent with code " ++ p.intent_code ++ " already exists"))
  | none => .ok (IntentRepository.create db tenant p)

/-- Durably committed snapshots of `IntentService.create`: the repository
issues exactly one `db.commit()`, after the intent row was flushed and all
policy rows added, so the only committed state is the final one. -/
def createCommits (db : Db) (tenant : String) (p : IntentCreate) : List Db :=
  match IntentRepository.get_by_code db tenant p.intent_code with
  | some _ => []
  | none => [(IntentRepository.create db tenant p).1]

/-- `IntentService.update`. -/
def update (db : Db) (tenant : String) (intent_id : Nat) (p : IntentUpdate) :
    Except ServiceError (Db × Intent) :=
  match IntentRepository.update db tenant intent_id p with
  | none => .error (.notFound "Intent not found")
  | some r => .ok r

end IntentService

namespace IntentPolicyService

/-- `IntentPolicyService.get`. -/
def get (db : Db) (tenant : String) (intent_id : Nat) (language_code : String) :
    Except ServiceError IntentPolicy :=
  match IntentPolicyRepository.get_by_intent_and_language db tenant intent_id language_code with
  | none => .error (.notFound "Intent policy not found")
  | some obj => .ok obj

/-- `IntentPolicyService.update`. -/
def update (db : Db) (tenant : String) (intent_id : Nat) (language_code : String)
    (p : IntentPolicyUpdate) : Except ServiceError (Db × IntentPolicy) :=
  match IntentPolicyRepository.update db tenant intent_id language_code p with
  | none => .error (.notFound "Intent policy not found")
  | some r => .ok r

end IntentPolicyService

/-! ## Validation rule schemas (`modules/validation_rules/schemas.py`) -/

/-- Payload `ValidationRuleCreate` (= `ValidationRuleBase`). -/
structure ValidationRuleCreate where
  intent_id : Nat
  language_code : String := "multi"
  tenant_id : String := "global"
  rule_code : String
  rule_name : String
  rule_description : String
  datasource_id : Nat
  execution_order : Int
  severity : String := "CRITICAL"
  is_active : Bool := true
deriving DecidableEq, Repr

/-- Payload `ValidationRuleUpdate`; every field optional, `none` = unset. -/
structure ValidationRuleUpdate where
  intent_id : Option Nat := none
  language_code : Option String := none
  tenant_id : Option String := none
  rule_code : Option String := none
  rule_name : Option String := none
  rule_description : Option String := none
  datasource_id : Option Nat := none
  execution_order : Option Int := none
  severity : Option String := none
  is_active : Option Bool := none
deriving DecidableEq, Repr

/-- Applies a `ValidationRuleUpdate` to a fetched rule row. -/
def applyValidationRuleUpdate (obj : ValidationRule) (p : ValidationRuleUpdate) : ValidationRule :=
  { obj with
    intent_id := p.intent_id.getD obj.intent_id
    language_code := p.language_code.getD obj.language_code
    tenant_id := p.tenant_id.getD obj.tenant_id
    rule_code := p.rule_code.getD obj.rule_code
    rule_name := p.rule_name.getD obj.rule_name
    rule_description := p.rule_description.getD obj.rule_description
    datasource_id := p.datasource_id.getD obj.datasource_id
    execution_order := p.execution_order.getD obj.execution_order
    severity := p.severity.getD obj.severity
    is_active := p.is_active.getD obj.is_active }

/-! ## Validation rule repository (`modules/validation_rules/repository.py`) -/

namespace ValidationRuleRepository

/-- `query(ValidationRule).filter(tenant, id).first()`. -/
def get_by_id (db : Db) (tenant : String) (rule_id : Nat) : Option ValidationRule :=
  db.rules.find? (fun r => r.tenant_id == tenant && r.rule_id == rule_id)

/-- The execution orders of the rules of exactly one (tenant, intent,
language) triple, in table order. -/
def tripleOrders (db : Db) (tenant : String) (intent_id : Nat) (language_code : String) :
    List Int :=
  (db.rules.filter (fun r =>
      r.tenant_id == tenant && r.intent_id == intent_id &&
      r.language_code == language_code)).map (·.execution_order)

/-- `ValidationRuleRepository.get_max_execution_order`: select the
execution orders of the (tenant, intent, language) triple ordered
descending, take the first (i.e. the maximum), and 0 when none exist. -/
def get_max_execution_order (db : Db) (tenant : String) (intent_id : Nat)
    (language_code : String) : Int :=
  match tripleOrders db tenant intent_id language_code with
  | [] => 0
  | o :: os => os.foldl max o

/-- `ValidationRuleRepository.create`: build the row with `tenant_id`
overridden by the path tenant, add it, commit. -/
def create (db : Db) (tenant : String) (p : ValidationRuleCreate) : Db × ValidationRule :=
  let obj : ValidationRule :=
    { rule_id := nextRuleId db
      intent_id := p.intent_id
      language_code := p.language_code
      tenant_id := tenant
      rule_code := p.rule_code
      rule_name := p.rule_name
      rule_description := p.rule_description
      datasource_id := p.datasource_id
      execution_order := p.execution_order
      severity := p.severity
      is_active := p.is_active }
  ({ db with rules := db.rules ++ [obj] }, obj)

/-- `ValidationRuleRepository.update`. -/
def update (db : Db) (tenant : String) (rule_id : Nat) (p : ValidationRuleUpdate) :
    Option (Db × ValidationRule) :=
  match get_by_id db tenant rule_id with
  | none => none
  | some obj =>
    let obj2 := applyValidationRuleUpdate obj p
    some ({ db with rules :=
              db.rules.map (fun r => if r.rule_id == obj.rule_id then obj2 else r) },
          obj2)

end ValidationRuleRepository

/-! ## Validation rule service (`modules/validation_rules/service.py`) -/

namespace ValidationRuleService

/-- `ValidationRuleService.get`. -/
def get (db : Db) (tenant : String) (rule_id : Nat) : Except ServiceError ValidationRule :=
  match ValidationRuleRepository.get_by_id db tenant rule_id with
  | none => .error (.notFound ("Validation rule with id " ++ toString rule_id ++ " not found"))
  | some obj => .ok obj

/-- `ValidationRuleService.create`: checks, in source order, (1) intent
exists for the tenant, (2) datasource exists for the tenant, (3) the
datasource is active — a bare Python `ValueError` otherwise, (4) rule_code
unused within (tenant, intent), (5) `execution_order >= 1`, (6) severity in
the two-value enum; only then inserts. -/
def create (db : Db) (tenant : String) (p : ValidationRuleCreate) :
    Except ServiceError (Db × ValidationRule) :=
  match IntentRepository.get_by_id db tenant p.intent_id with
  | none => .error (.notFound ("Intent with id " ++ toString p.intent_id ++ " not found"))
  | some _ =>
    match DatasourceRepository.get_by_id db tenant p.datasource_id with
    | none => .error (.notFound
        ("Datasource with id " ++ toString p.datasource_id ++ " not found"))
    | some ds =>
      if !ds.is_active then
        .error (.valueError ("Datasource " ++ ds.name ++
          " is not active. Cannot create validation rule with inactive datasource."))
      else
        match db.rules.find? (fun r =>
            r.tenant_id == tenant && r.rule_code == p.rule_code &&
            r.intent_id == p.intent_id) with
        | some _ => .error (.alreadyExists
            ("Validation rule with code " ++ p.rule_code ++ " already exists in this intent"))
        | none =>
          if p.execution_order < 1 then
            .error (.valueError "execution_order must be >= 1")
          else if !(p.severity == "CRITICAL" || p.severity == "WARNING") then
            .error (.valueError "severity must be either CRITICAL or WARNING")
          else
            .ok (ValidationRuleRepository.create db tenant p)

/-- `ValidationRuleService.update`: partial re-validation of only the
supplied fields, then the repository update. -/
def update (db : Db) (tenant : String) (rule_id : Nat) (p : ValidationRuleUpdate) :
    Except ServiceError (Db × ValidationRule) :=
  match ValidationRuleRepository.get_by_id db tenant rule_id with
  | none => .error (.notFound ("Validation rule with id " ++ toString rule_id ++ " not found"))
  | some _ =>
    match p.datasource_id with
    | some dsid =>
      match DatasourceRepository.get_by_id db tenant dsid with
      | none => .error (.notFound ("Datasource with id " ++ toString dsid ++ " not found"))
      | some ds =>
        if !ds.is_active then
          .error (.valueError ("Datasource " ++ ds.name ++
            " is not active. Cannot update to inactive datasource."))
        else update2 db tenant rule_id p
    | none => update2 db tenant rule_id p
where
  /-- Continuation after the optional datasource re-check. -/
  update2 (db : Db) (tenant : String) (rule_id : Nat) (p : ValidationRuleUpdate) :
      Except ServiceError (Db × ValidationRule) :=
    match p.intent_id with
    | some iid =>
      match IntentRepository.get_by_id db tenant iid with
      | none => .error (.notFound ("Intent with id " ++ toString iid ++ " not found"))
      | some _ => update3 db tenant rule_id p
    | none => update3 db tenant rule_id p
  /-- Continuation after the optional intent re-check. -/
  update3 (db : Db) (tenant : String) (rule_id : Nat) (p : ValidationRuleUpdate) :
      Except ServiceError (Db × ValidationRule) :=
    if (match p.execution_order with | some eo => decide (eo < 1) | none => false) then
      .error (.valueError "execution_order must be >= 1")
    else if (match p.severity with
             | some sv => !(sv == "CRITICAL" || sv == "WARNING")
             | none => false) then
      .error (.valueError "severity must be either CRITICAL or WARNING")
    else
      match ValidationRuleRepository.update db tenant rule_id p with
      | none => .error (.notFound ("Validation rule with id " ++ toString rule_id ++ " not found"))
      | some r => .ok r

/-- `ValidationRuleService.get_next_execution_order`. -/
def get_next_execution_order (db : Db) (tenant : String) (intent_id : Nat)
    (language_code : String := "multi") : Int :=
  ValidationRuleRepository.get_max_execution_order db tenant intent_id language_code + 1

end ValidationRuleService

/-! ## Generic lemmas about the query/update embedding -/

/-- When an in-place row update replaces every row the query predicate can
match by a row that still matches the predicate, the query finds the
replacement. -/
theorem find?_map_replace_some {α : Type} (p c : α → Bool) (l : List α) (obj obj2 : α)
    (hfind : l.find? p = some obj)
    (hkeep : ∀ d, p d = true → c d = true)
    (hp2 : p obj2 = true) :
    (l.map (fun d => if c d then obj2 else d)).find? p = some obj2 := by
  induction l with
  | nil => simp at hfind
  | cons d t ih =>
    by_cases hpd : p d = true
    · have hcd : c d = true := hkeep d hpd
      simp only [List.map_cons, hcd, if_true]
      exact List.find?_cons_of_pos _ hp2
    · rw [List.find?_cons_of_neg _ (by simpa using hpd)] at hfind
      by_cases hcd : c d = true
      · simp only [List.map_cons, hcd, if_true]
        exact List.find?_cons_of_pos _ hp2
      · simp only [List.map_cons, hcd, if_false]
        rw [List.find?_cons_of_neg _ (by simpa using hpd)]
        exact ih hfind

/-- When an in-place row update replaces every row the query predicate can
match by a row that no longer matches it, the query finds nothing. -/
theorem find?_map_replace_none {α : Type} (p c : α → Bool) (l : List α) (obj2 : α)
    (hkeep : ∀ d, p d = true → c d = true)
    (hp2 : p obj2 = false) :
    (l.map (fun d => if c d then obj2 else d)).find? p = none := by
  rw [List.find?_eq_none]
  intro x hx
  rcases List.mem_map.mp hx with ⟨d, _, rfl⟩
  by_cases hcd : c d = true
  · simp only [hcd, if_true]
    simp [hp2]
  · simp only [hcd, if_false]
    intro hpd
    exact hcd (hkeep d hpd)

/-- A query whose predicate is satisfied by exactly one element of the
table finds that element. -/
theorem find?_eq_of_unique {α : Type} (p : α → Bool) (l : List α) (a : α)
    (ha : a ∈ l) (hpa : p a = true)
    (huniq : ∀ b ∈ l, p b = true → b = a) :
    l.find? p = some a := by
  induction l with
  | nil => cases ha
  | cons d t ih =>
    by_cases hpd : p d = true
    · rw [List.find?_cons_of_pos _ hpd]
      rw [huniq d (List.mem_cons_self d t) hpd]
    · rw [List.find?_cons_of_neg _ (by simpa using hpd)]
      have hat : a ∈ t := by
        rcases List.mem_cons.mp ha with h | h
        · exact absurd (h ▸ hpa) hpd
        · exact h
      exact ih hat (fun b hb hpb => huniq b (List.mem_cons_of_mem _ hb) hpb)

/-- The fold computing an `ORDER BY ... DESC ... .first()` maximum bounds
the seed and every element. -/
theorem foldl_max_bounds (o : Int) (os : List Int) :
    o ≤ os.foldl max o ∧ ∀ x ∈ os, x ≤ os.foldl max o := by
  induction os generalizing o with
  | nil => exact ⟨le_refl o, by simp⟩
  | cons b t ih =>
    obtain ⟨h1, h2⟩ := ih (max o b)
    refine ⟨le_trans (le_max_left o b) h1, ?_⟩
    intro x hx
    rcases List.mem_cons.mp hx with rfl | hxt
    · exact le_trans (le_max_right o x) h1
    · exact h2 x hxt

/-- The fold computing the maximum returns the seed or an element. -/
theorem foldl_max_mem (o : Int) (os : List Int) :
    os.foldl max o = o ∨ os.foldl max o ∈ os := by
  induction os generalizing o with
  | nil => exact .inl rfl
  | cons b t ih =>
    rcases ih (max o b) with h | h
    · rw [List.foldl_cons, h]
      rcases max_choice o b with hm | hm
      · exact .inl hm
      · right
        rw [hm]
        exact List.mem_cons_self b t
    · exact .inr (List.mem_cons_of_mem _ h)

/-! ## Concrete rows shared by witnesses and counterexamples -/

/-- Sample datasource, tenant `global`, type `postgres`, active. -/
def wDs1 : Datasource :=
  { datasource_id := 1, name := "DS1", datasource_type := "postgres",
    connection_key := "OLD", description := none, tenant_id := "global", is_active := true }

/-- Sample inactive datasource of the same tenant and type. -/
def wDs2 : Datasource := { wDs1 with datasource_id := 2, name := "DS2", is_active := false }

/-- Sample datasource of another tenant with the same type. -/
def wDs3 : Datasource := { wDs1 with datasource_id := 3, name := "DS3", tenant_id := "other" }

/-- Sample db with the three datasources above and nothing else. -/
def wDb : Db :=
  { datasources := [wDs1, wDs2, wDs3], configs := [], intents := [], policies := [], rules := [] }

/-- Sample config-create payload with `driver_family = postgres`. -/
def wCfgP : DatasourceConfigCreate := { name := "PG1", protocol := "sql", driver_family := "postgres" }

/-- The config row `DatasourceConfigService.create wDb "global" wCfgP` inserts. -/
def wCfg1 : DatasourceConfig :=
  { config_id := 1, name := "PG1", tenant_id := "global", protocol := "sql",
    driver_family := "postgres", base_url := none, auth_type := none, auth_config := none,
    connection_json := none, metadata_ref := none, is_active := true, router_base_url := none }

/-- The final state of that create: both `global` datasources repointed,
the other tenant's untouched. -/
def wDbC1 : Db :=
  { wDb with
    datasources := [{ wDs1 with connection_key := "PG1" },
                    { wDs2 with connection_key := "PG1" }, wDs3],
    configs := [wCfg1] }

/-! ## C1 -/

/-- C1: a successful `DatasourceConfigService.create` in tenant `T` with
`driver_family = X` sets `connection_key` to the new config's name on
exactly the datasources of tenant `T` with `datasource_type = X` — the
repoint condition tests only tenant and type, never `is_active`, so active
and inactive rows alike are repointed — and maps every other row (in
particular every row of every other tenant) to itself. -/
theorem config_create_repoints_only_matching_tenant
    (db : Db) (tenant : String) (p : DatasourceConfigCreate)
    (db2 : Db) (cfg : DatasourceConfig)
    (hok : DatasourceConfigService.create db tenant p = .ok (db2, cfg)) :
    cfg.name = p.name ∧
    db2.datasources = db.datasources.map (fun d =>
      if d.tenant_id = tenant ∧ d.datasource_type = p.driver_family
      then { d with connection_key := p.name } else d) := by
  unfold DatasourceConfigService.create at hok
  cases hfind : DatasourceConfigRepository.get_by_name db tenant p.name with
  | some c =>
    rw [hfind] at hok
    exact absurd hok (by simp)
  | none =>
    rw [hfind] at hok
    simp only [DatasourceConfigRepository.create, Except.ok.injEq, Prod.mk.injEq] at hok
    obtain ⟨hdb, hcfg⟩ := hok
    subst hdb
    subst hcfg
    refine ⟨rfl, ?_⟩
    apply List.map_congr_left
    intro d _
    by_cases h1 : d.tenant_id = tenant
    · by_cases h2 : d.datasource_type = p.driver_family
      · simp [h1, h2]
      · simp [h1, h2]
    · simp [h1]

/-- Witness for C1 at a concrete state: one active and one inactive
`postgres` datasource in `global` plus one in `other`. -/
theorem config_create_repoints_only_matching_tenant_witness :
    wCfg1.name = wCfgP.name ∧
    wDbC1.datasources = wDb.datasources.map (fun d =>
      if d.tenant_id = "global" ∧ d.datasource_type = wCfgP.driver_family
      then { d with connection_key := wCfgP.name } else d) :=
  config_create_repoints_only_matching_tenant wDb "global" wCfgP wDbC1 wCfg1 (by decide)

/-! ## C2 -/

/-- Boolean/propositional forms of the driver-family repoint pass agree. -/
theorem repoint_by_type_map_eq (tenant fam nm : String) (l : List Datasource) :
    l.map (fun d => if d.tenant_id == tenant && d.datasource_type == fam
                    then { d with connection_key := nm } else d) =
    l.map (fun d => if d.tenant_id = tenant ∧ d.datasource_type = fam
                    then { d with connection_key := nm } else d) := by
  apply List.map_congr_left
  intro d _
  by_cases h1 : d.tenant_id = tenant
  · by_cases h2 : d.datasource_type = fam
    · simp [h1, h2]
    · simp [h1, h2]
  · simp [h1]

/-- Boolean/propositional forms of the connection-key repoint pass agree. -/
theorem repoint_by_key_map_eq (tenant old nm : String) (l : List Datasource) :
    l.map (fun d => if d.tenant_id == tenant && d.connection_key == old
                    then { d with connection_key := nm } else d) =
    l.map (fun d => if d.tenant_id = tenant ∧ d.connection_key = old
                    then { d with connection_key := nm } else d) := by
  apply List.map_congr_left
  intro d _
  by_cases h1 : d.tenant_id = tenant
  · by_cases h2 : d.connection_key = old
    · simp [h1, h2]
    · simp [h1, h2]
  · simp [h1]

/-- C2 counterexample: on a concrete state the commit trace of a config
create contains a durably committed snapshot (the one right after the
insert) in which the config row is present but a same-tenant datasource of
the matching driver family still has its old `connection_key`; the
insert-and-repoint pair is NOT one unit of work. -/
theorem config_create_commit_atomicity_cex :
    ¬ (∀ s ∈ DatasourceConfigService.createCommits wDb "global" wCfgP,
        (DatasourceConfigRepository.get_by_name s "global" wCfgP.name).isSome = true →
        ∀ d ∈ s.datasources,
          d.tenant_id = "global" → d.datasource_type = wCfgP.driver_family →
          d.connection_key = wCfgP.name) := by decide

/-- C2 amended: the config insert and the datasource repointing are
committed as two SEPARATE units of work — the commit trace has exactly two
snapshots; the first durably contains the new config row with every
datasource still untouched, and only the second contains the repointing.
A failure between the two commits therefore leaves the config committed
with the matching datasources of its tenant not repointed. -/
theorem config_create_commits_in_two_units
    (db : Db) (tenant : String) (p : DatasourceConfigCreate)
    (hname : DatasourceConfigRepository.get_by_name db tenant p.name = none) :
    DatasourceConfigService.createCommits db tenant p =
      [{ db with configs := db.configs ++ [(DatasourceConfigRepository.create db tenant p).2] },
       { db with
         configs := db.configs ++ [(DatasourceConfigRepository.create db tenant p).2],
         datasources := db.datasources.map (fun d =>
           if d.tenant_id = tenant ∧ d.datasource_type = p.driver_family
           then { d with connection_key := p.name } else d) }] := by
  unfold DatasourceConfigService.createCommits
  rw [hname]
  rw [← repoint_by_type_map_eq tenant p.driver_family p.name db.datasources]
  rfl

/-- Witness for C2 at the concrete state of the counterexample. -/
theorem config_create_commits_in_two_units_witness :
    DatasourceConfigService.createCommits wDb "global" wCfgP =
      [{ wDb with configs := [wCfg1] }, wDbC1] := by
  have h := config_create_commits_in_two_units wDb "global" wCfgP (by decide)
  rw [h]
  decide

/-! ## C3 -/

/-- Sample intent (id 5) in tenant `global`. -/
def wIntent5 : Intent :=
  { intent_id := 5, intent_code := "IC", tenant_id := "global",
    display_name := "Intent5", description := none, category := none, is_active := true }

/-- Sample rule-create payload referencing intent 5 and datasource 2
(the inactive one), otherwise fully valid. -/
def wRuleP : ValidationRuleCreate :=
  { intent_id := 5, language_code := "en", rule_code := "R1", rule_name := "Rule 1",
    rule_description := "desc", datasource_id := 2, execution_order := 1,
    severity := "CRITICAL" }

/-- Sample state for C3: intent 5 exists and datasource 2 is inactive. -/
def wDbC3 : Db :=
  { datasources := [wDs1, wDs2], configs := [], intents := [wIntent5],
    policies := [], rules := [] }

/-- The state after reactivating datasource 2 through the public update. -/
def wDbReact : Db :=
  { wDbC3 with datasources := wDbC3.datasources.map (fun d =>
      if d.datasource_id == wDs2.datasource_id then { wDs2 with is_active := true } else d) }

/-- C3 counterexample: at a concrete state with an otherwise fully valid
payload against an inactive datasource, the create fails with a bare
Python `ValueError` — not with the `ValidationException` (Invalid,
400-class) kind the claim states. -/
theorem validation_rule_inactive_ds_error_kind_cex :
    ValidationRuleService.create wDbC3 "global" wRuleP =
      .error (.valueError
        "Datasource DS2 is not active. Cannot create validation rule with inactive datasource.") ∧
    (ServiceError.valueError
        "Datasource DS2 is not active. Cannot create validation rule with inactive datasource.").isValidationException
      = false := by
  exact ⟨by decide, by decide⟩

/-- Helper: with every pre-check satisfied (intent exists, datasource
exists and is active, rule_code unused in the intent, positive order,
valid severity), `ValidationRuleService.create` succeeds with exactly the
repository insert. -/
theorem validation_rule_create_ok
    (db : Db) (tenant : String) (p : ValidationRuleCreate) (i : Intent) (ds : Datasource)
    (h1 : IntentRepository.get_by_id db tenant p.intent_id = some i)
    (h2 : DatasourceRepository.get_by_id db tenant p.datasource_id = some ds)
    (h3 : ds.is_active = true)
    (h4 : db.rules.find? (fun r => r.tenant_id == tenant && r.rule_code == p.rule_code &&
            r.intent_id == p.intent_id) = none)
    (h5 : 1 ≤ p.execution_order)
    (h6 : p.severity = "CRITICAL" ∨ p.severity = "WARNING") :
    ValidationRuleService.create db tenant p =
      .ok (ValidationRuleRepository.create db tenant p) := by
  have hsev : (p.severity == "CRITICAL" || p.severity == "WARNING") = true := by
    rcases h6 with h | h <;> simp [h]
  unfold ValidationRuleService.create
  rw [h1, h2]
  simp only [h3, h4, hsev, Bool.not_true, Bool.false_eq_true, if_false]
  rw [if_neg (by omega : ¬ p.execution_order < 1)]

/-- C3 amended: an otherwise fully valid create against an inactive
datasource fails with a bare Python `ValueError` naming the datasource
(not with the 400-class `ValidationException`), before any write; after
reactivating the datasource through the public Datasource update, the
identical payload succeeds. -/
theorem validation_rule_create_inactive_ds_amended
    (db : Db) (tenant : String) (p : ValidationRuleCreate) (i : Intent) (ds : Datasource)
    (h1 : IntentRepository.get_by_id db tenant p.intent_id = some i)
    (h2 : DatasourceRepository.get_by_id db tenant p.datasource_id = some ds)
    (h3 : ds.is_active = false)
    (h4 : db.rules.find? (fun r => r.tenant_id == tenant && r.rule_code == p.rule_code &&
            r.intent_id == p.intent_id) = none)
    (h5 : 1 ≤ p.execution_order)
    (h6 : p.severity = "CRITICAL" ∨ p.severity = "WARNING") :
    ValidationRuleService.create db tenant p =
      .error (.valueError ("Datasource " ++ ds.name ++
        " is not active. Cannot create validation rule with inactive datasource.")) ∧
    DatasourceService.update db tenant p.datasource_id { is_active := some true } =
      .ok ({ db with datasources := db.datasources.map (fun d =>
               if d.datasource_id == ds.datasource_id
               then { ds with is_active := true } else d) },
           { ds with is_active := true }) ∧
    ValidationRuleService.create
        { db with datasources := db.datasources.map (fun d =>
            if d.datasource_id == ds.datasource_id
            then { ds with is_active := true } else d) } tenant p =
      .ok (ValidationRuleRepository.create
        { db with datasources := db.datasources.map (fun d =>
            if d.datasource_id == ds.datasource_id
            then { ds with is_active := true } else d) } tenant p) := by
  have hpred := List.find?_some
    (show List.find? (fun d => d.tenant_id == tenant && d.datasource_id == p.datasource_id)
        db.datasources = some ds from h2)
  simp only [Bool.and_eq_true, beq_iff_eq] at hpred
  refine ⟨?_, ?_, ?_⟩
  · unfold ValidationRuleService.create
    rw [h1, h2]
    simp only [h3, Bool.not_false, if_true]
  · unfold DatasourceService.update DatasourceRepository.update
    rw [h2]
    rfl
  · have hds2 : DatasourceRepository.get_by_id
        { db with datasources := db.datasources.map (fun d =>
            if d.datasource_id == ds.datasource_id
            then { ds with is_active := true } else d) }
        tenant p.datasource_id = some { ds with is_active := true } := by
      unfold DatasourceRepository.get_by_id
      exact find?_map_replace_some
        (fun d : Datasource => d.tenant_id == tenant && d.datasource_id == p.datasource_id)
        (fun d : Datasource => d.datasource_id == ds.datasource_id)
        db.datasources ds { ds with is_active := true } h2
        (by intro d hd
            simp only [Bool.and_eq_true, beq_iff_eq] at hd
            simp [hd.2, hpred.2])
        (by simp [hpred.1, hpred.2])
    exact validation_rule_create_ok _ tenant p i { ds with is_active := true }
      h1 hds2 rfl h4 h5 h6

/-- Witness for C3 at the concrete state: create fails with the
`ValueError` while datasource 2 is inactive, and succeeds on the
reactivated state. -/
theorem validation_rule_create_inactive_ds_amended_witness :
    ValidationRuleService.create wDbC3 "global" wRuleP =
      .error (.valueError ("Datasource " ++ wDs2.name ++
        " is not active. Cannot create validation rule with inactive datasource.")) ∧
    (ValidationRuleService.create wDbReact "global" wRuleP).isOk = true := by
  have h := validation_rule_create_inactive_ds_amended wDbC3 "global" wRuleP wIntent5 wDs2
    (by decide) (by decide) (by decide) (by decide) (by decide) (by decide)
  refine ⟨h.1, ?_⟩
  have h3 : ValidationRuleService.create wDbReact "global" wRuleP =
      .ok (ValidationRuleRepository.create wDbReact "global" wRuleP) := h.2.2
  rw [h3]
  rfl

/-! ## C4 -/

/-- C4: a Datasource update whose payload carries a (truthy)
`connection_key` different from the current one succeeds, and: when a
config of the tenant named after the OLD key exists, exactly that config
is renamed to the NEW key (every other config row is mapped to itself);
when none exists, the configs table is unchanged. Stated under the
standard primary-key-uniqueness invariant of the configs table. -/
theorem datasource_update_renames_config_named_old_key
    (db : Db) (tenant : String) (datasource_id : Nat) (p : DatasourceUpdate)
    (existing : Datasource) (k : String)
    (hex : DatasourceRepository.get_by_id db tenant datasource_id = some existing)
    (hk : p.connection_key = some k)
    (hkne : k ≠ "")
    (hne : k ≠ existing.connection_key)
    (hnd : (db.configs.map (·.config_id)).Nodup) :
    (∀ cfg, DatasourceConfigRepository.get_by_name db tenant existing.connection_key = some cfg →
       DatasourceService.update db tenant datasource_id p =
         .ok ({ db with
                datasources := db.datasources.map (fun d =>
                  if d.datasource_id == existing.datasource_id
                  then applyDatasourceUpdate existing p else d),
                configs := db.configs.map (fun c =>
                  if c.config_id == cfg.config_id then { cfg with name := k } else c) },
              applyDatasourceUpdate existing p)) ∧
    (DatasourceConfigRepository.get_by_name db tenant existing.connection_key = none →
       DatasourceService.update db tenant datasource_id p =
         .ok ({ db with
                datasources := db.datasources.map (fun d =>
                  if d.datasource_id == existing.datasource_id
                  then applyDatasourceUpdate existing p else d) },
              applyDatasourceUpdate existing p)) := by
  constructor
  · intro cfg hcfg
    have hmem : cfg ∈ db.configs := List.mem_of_find?_eq_some hcfg
    have hcp := List.find?_some
      (show List.find? (fun c => c.tenant_id == tenant && c.name == existing.connection_key)
          db.configs = some cfg from hcfg)
    simp only [Bool.and_eq_true, beq_iff_eq] at hcp
    unfold DatasourceService.update DatasourceRepository.update
    rw [hex, hk]
    simp only []
    rw [if_pos ⟨hkne, hne⟩]
    have hb : DatasourceConfigRepository.get_by_name
        { datasources := db.datasources.map (fun d =>
            if d.datasource_id == existing.datasource_id
            then applyDatasourceUpdate existing p else d),
          configs := db.configs, intents := db.intents,
          policies := db.policies, rules := db.rules }
        tenant existing.connection_key = some cfg := hcfg
    rw [hb]
    simp only []
    have hgid : DatasourceConfigRepository.get_by_id
        { datasources := db.datasources.map (fun d =>
            if d.datasource_id == existing.datasource_id
            then applyDatasourceUpdate existing p else d),
          configs := db.configs, intents := db.intents,
          policies := db.policies, rules := db.rules }
        tenant cfg.config_id = some cfg := by
      unfold DatasourceConfigRepository.get_by_id
      refine find?_eq_of_unique
        (fun c : DatasourceConfig => c.tenant_id == tenant && c.config_id == cfg.config_id)
        db.configs cfg hmem (by simp [hcp.1]) ?_
      intro b hb2 hpb
      simp only [Bool.and_eq_true, beq_iff_eq] at hpb
      exact List.inj_on_of_nodup_map hnd hb2 hmem hpb.2
    unfold DatasourceConfigRepository.update
    rw [hgid]
    rfl
  · intro hcfg
    unfold DatasourceService.update DatasourceRepository.update
    rw [hex, hk]
    simp only []
    rw [if_pos ⟨hkne, hne⟩]
    have hb : DatasourceConfigRepository.get_by_name
        { datasources := db.datasources.map (fun d =>
            if d.datasource_id == existing.datasource_id
            then applyDatasourceUpdate existing p else d),
          configs := db.configs, intents := db.intents,
          policies := db.policies, rules := db.rules }
        tenant existing.connection_key = none := hcfg
    rw [hb]

/-- Config row named after `wDs1`'s current connection key. -/
def wCfgOld : DatasourceConfig := { wCfg1 with config_id := 1, name := "OLD" }

/-- Concrete state for the C4 witness. -/
def wDbC4 : Db :=
  { datasources := [wDs1], configs := [wCfgOld], intents := [], policies := [], rules := [] }

/-- Witness for C4: changing the key from `OLD` to `NEW` renames the
config named `OLD` to `NEW`. -/
theorem datasource_update_renames_config_named_old_key_witness :
    DatasourceService.update wDbC4 "global" 1 { connection_key := some "NEW" } =
      .ok ({ wDbC4 with
             datasources := wDbC4.datasources.map (fun d =>
               if d.datasource_id == wDs1.datasource_id
               then applyDatasourceUpdate wDs1 { connection_key := some "NEW" } else d),
             configs := wDbC4.configs.map (fun c =>
               if c.config_id == wCfgOld.config_id then { wCfgOld with name := "NEW" } else c) },
           applyDatasourceUpdate wDs1 { connection_key := some "NEW" }) :=
  (datasource_update_renames_config_named_old_key wDbC4 "global" 1
      { connection_key := some "NEW" } wDs1 "NEW" (by decide) rfl (by decide) (by decide)
      (by decide)).1 wCfgOld (by decide)

/-! ## C5 -/

/-- Config of tenant `global` named `A`. -/
def wCfgA : DatasourceConfig := { wCfg1 with config_id := 1, name := "A" }

/-- Datasource of tenant `global` with `connection_key = "C"` and
`datasource_type = "mysql"`. -/
def wDsC : Datasource :=
  { wDs1 with
    datasource_id := 4
    name := "DS4"
    datasource_type := "mysql"
    connection_key := "C" }

/-- Concrete state for the C5 counterexample. -/
def wDbC5 : Db :=
  { datasources := [wDsC], configs := [wCfgA], intents := [], policies := [], rules := [] }

/-- C5 counterexample: an update that renames the config from `A` to `B`
and also changes `driver_family` repoints a datasource whose
`connection_key` was `"C"` (not `"A"`) to `"B"`: the driver-family pass
runs independently, so rows with other keys are NOT left untouched. -/
theorem config_rename_frame_cex :
    (DatasourceConfigService.update wDbC5 "global" 1
        { name := some "B", driver_family := some "mysql" }).map
      (fun r => r.1.datasources.map (fun d => d.connection_key)) = .ok ["B"] ∧
    wDbC5.datasources.map (fun d => d.connection_key) = ["C"] ∧
    wDbC5.configs.map (fun c => c.name) = ["A"] := by decide

/-- C5 amended: for an update that renames the config from `A` to `B`, is
not rejected by the name-uniqueness pre-check, and does NOT also change
`driver_family`, every datasource of the tenant with `connection_key = A`
is repointed to `B` and every other datasource row (other key or other
tenant) is mapped to itself. -/
theorem config_update_rename_repoints_exactly_old_key
    (db : Db) (tenant : String) (config_id : Nat) (p : DatasourceConfigUpdate)
    (existing : DatasourceConfig) (newName : String)
    (hex : DatasourceConfigRepository.get_by_id db tenant config_id = some existing)
    (hn : p.name = some newName)
    (hne1 : newName ≠ "")
    (hne2 : newName ≠ existing.name)
    (huniq : DatasourceConfigRepository.get_by_name db tenant newName = none)
    (hdrv : wantsNewValue p.driver_family existing.driver_family = false) :
    DatasourceConfigService.update db tenant config_id p =
      .ok ({ db with
             configs := db.configs.map (fun c =>
               if c.config_id == existing.config_id then applyConfigUpdate existing p else c),
             datasources := db.datasources.map (fun d =>
               if d.tenant_id = tenant ∧ d.connection_key = existing.name
               then { d with connection_key := newName } else d) },
           applyConfigUpdate existing p) := by
  have hwv : wantsNewValue (some newName) existing.name = true := by
    simp [wantsNewValue, truthy, hne1, hne2]
  unfold DatasourceConfigService.update DatasourceConfigRepository.update
  rw [hex, hn]
  simp only [Option.getD_some]
  rw [huniq]
  simp only [Option.isSome_none, Bool.and_false, Bool.false_eq_true, if_false]
  rw [hwv]
  simp only [if_true]
  rw [hdrv]
  simp only [Bool.false_eq_true, if_false]
  rw [← repoint_by_key_map_eq tenant existing.name newName db.datasources]

/-- Datasource of tenant `global` keyed `A`. -/
def wDsA : Datasource := { wDs1 with connection_key := "A" }

/-- Concrete state for the C5 witness: one `A`-keyed row in `global`, one
`OLD`-keyed row in another tenant, and the config named `A`. -/
def wDbC5w : Db :=
  { datasources := [wDsA, wDs3], configs := [wCfgA], intents := [], policies := [], rules := [] }

/-- Witness for C5: renaming `A` to `B` (name only) repoints the `A`-keyed
row and leaves the other tenant row unchanged. -/
theorem config_update_rename_repoints_exactly_old_key_witness :
    DatasourceConfigService.update wDbC5w "global" 1 { name := some "B" } =
      .ok ({ wDbC5w with
             configs := wDbC5w.configs.map (fun c =>
               if c.config_id == wCfgA.config_id
               then applyConfigUpdate wCfgA { name := some "B" } else c),
             datasources := wDbC5w.datasources.map (fun d =>
               if d.tenant_id = "global" ∧ d.connection_key = wCfgA.name
               then { d with connection_key := "B" } else d) },
           applyConfigUpdate wCfgA { name := some "B" }) :=
  config_update_rename_repoints_exactly_old_key wDbC5w "global" 1 { name := some "B" }
    wCfgA "B" (by decide) rfl (by decide) (by decide) (by decide) (by decide)

/-! ## C6 -/

/-- C6: a successful config delete removes exactly the config row found
for (tenant, id) and leaves every other table — in particular every
datasource row of every tenant, hence every `connection_key` —
byte-for-byte unchanged. -/
theorem config_delete_leaves_datasources_untouched
    (db : Db) (tenant : String) (config_id : Nat) (db2 : Db)
    (h : DatasourceConfigService.delete db tenant config_id = .ok db2) :
    db2.datasources = db.datasources ∧
    db2.intents = db.intents ∧ db2.policies = db.policies ∧ db2.rules = db.rules ∧
    ∃ cfg, DatasourceConfigRepository.get_by_id db tenant config_id = some cfg ∧
      db2.configs = db.configs.filter (fun c => !(c.config_id == cfg.config_id)) := by
  unfold DatasourceConfigService.delete DatasourceConfigRepository.delete at h
  cases hfind : DatasourceConfigRepository.get_by_id db tenant config_id with
  | none =>
    rw [hfind] at h
    simp at h
  | some cfg =>
    rw [hfind] at h
    simp only [Except.ok.injEq] at h
    subst h
    exact ⟨rfl, rfl, rfl, rfl, cfg, rfl, rfl⟩

/-- Witness for C6: deleting config 1 of `wDbC4` leaves the datasource
table unchanged and empties the configs table. -/
theorem config_delete_leaves_datasources_untouched_witness :
    DatasourceConfigService.delete wDbC4 "global" 1 = .ok { wDbC4 with configs := [] } ∧
    ({ wDbC4 with configs := [] } : Db).datasources = wDbC4.datasources := by
  refine ⟨by decide, ?_⟩
  exact (config_delete_leaves_datasources_untouched wDbC4 "global" 1
    { wDbC4 with configs := [] } (by decide)).1

/-! ## C7 -/

/-- C7: `get_next_execution_order` returns 1 when no rule of exactly the
(tenant, intent, language) triple exists, and otherwise returns one more
than the maximum `execution_order` over exactly that triple: every order
of the triple is below it, and its predecessor is attained by one of the
triple's rules (rules of other languages, intents or tenants are outside
`tripleOrders` by construction). -/
theorem next_execution_order_is_max_plus_one
    (db : Db) (tenant : String) (intent_id : Nat) (language_code : String) :
    (ValidationRuleRepository.tripleOrders db tenant intent_id language_code = [] →
      ValidationRuleService.get_next_execution_order db tenant intent_id language_code = 1) ∧
    (∀ o ∈ ValidationRuleRepository.tripleOrders db tenant intent_id language_code,
      o < ValidationRuleService.get_next_execution_order db tenant intent_id language_code) ∧
    (ValidationRuleRepository.tripleOrders db tenant intent_id language_code ≠ [] →
      ValidationRuleService.get_next_execution_order db tenant intent_id language_code - 1 ∈
        ValidationRuleRepository.tripleOrders db tenant intent_id language_code) := by
  unfold ValidationRuleService.get_next_execution_order
    ValidationRuleRepository.get_max_execution_order
  cases horders : ValidationRuleRepository.tripleOrders db tenant intent_id language_code with
  | nil =>
    refine ⟨fun _ => rfl, by simp, fun hne => absurd rfl hne⟩
  | cons o os =>
    simp only []
    obtain ⟨hseed, hall⟩ := foldl_max_bounds o os
    refine ⟨fun hc => absurd hc (by simp), ?_, fun _ => ?_⟩
    · intro x hx
      rcases List.mem_cons.mp hx with rfl | hxt
      · omega
      · have := hall x hxt
        omega
    · have hmem := foldl_max_mem o os
      have : os.foldl max o + 1 - 1 = os.foldl max o := by omega
      rw [this]
      rcases hmem with hm | hm
      · rw [hm]
        exact List.mem_cons_self o os
      · exact List.mem_cons_of_mem _ hm

/-- Rule of (global, intent 5, language en) with order 1. -/
def wRule1 : ValidationRule :=
  { rule_id := 1, intent_id := 5, language_code := "en", tenant_id := "global",
    rule_code := "R1", rule_name := "Rule 1", rule_description := "desc",
    datasource_id := 1, execution_order := 1, severity := "CRITICAL", is_active := true }

/-- Noise rule of another language with a higher order. -/
def wRule2 : ValidationRule :=
  { wRule1 with rule_id := 2, rule_code := "R2", execution_order := 7, language_code := "fr" }

/-- Noise rule of another tenant with a higher order. -/
def wRule3 : ValidationRule :=
  { wRule1 with rule_id := 3, rule_code := "R3", execution_order := 4, tenant_id := "other" }

/-- Concrete state for the C7 witness. -/
def wDbC7 : Db :=
  { datasources := [], configs := [], intents := [], policies := [],
    rules := [wRule1, wRule2, wRule3] }

/-- Witness for C7: with orders {1} for (global, 5, en) amid noise rows,
the predecessor of the next order is attained, and for the rule-free
triple (global, 5, de) the next order is 1. -/
theorem next_execution_order_is_max_plus_one_witness :
    (ValidationRuleService.get_next_execution_order wDbC7 "global" 5 "en" - 1 ∈
      ValidationRuleRepository.tripleOrders wDbC7 "global" 5 "en") ∧
    ValidationRuleService.get_next_execution_order wDbC7 "global" 5 "de" = 1 := by
  refine ⟨?_, ?_⟩
  · exact (next_execution_order_is_max_plus_one wDbC7 "global" 5 "en").2.2 (by decide)
  · exact (next_execution_order_is_max_plus_one wDbC7 "global" 5 "de").1 (by decide)

/-! ## C8 -/

/-- C8: after the intent_code pre-check passes, intent create persists the
intent row (with the flushed id) and all its policy rows in ONE committed
unit: the commit trace is the single final state containing both the
intent and every policy (each carrying the intent's flushed id and the
path tenant), so no committed state holds the intent without its
policies. -/
theorem intent_create_single_commit
    (db : Db) (tenant : String) (p : IntentCreate)
    (h : IntentRepository.get_by_code db tenant p.intent_code = none) :
    ∃ db2 obj,
      IntentService.create db tenant p = .ok (db2, obj) ∧
      IntentService.createCommits db tenant p = [db2] ∧
      obj.intent_id = nextIntentId db ∧
      obj.intent_code = p.intent_code ∧
      obj.tenant_id = tenant ∧
      db2.intents = db.intents ++ [obj] ∧
      db2.policies = db.policies ++ p.policies.map (mkIntentPolicy tenant obj.intent_id) := by
  refine ⟨(IntentRepository.create db tenant p).1, (IntentRepository.create db tenant p).2,
    ?_, ?_, rfl, rfl, rfl, rfl, rfl⟩
  · unfold IntentService.create
    rw [h]
  · unfold IntentService.createCommits
    rw [h]

/-- Policy payload used by the C8 witness. -/
def wPolP : IntentPolicyCreate := { auto_process_min_conf := 90, manual_review_min_conf := 50 }

/-- Intent-create payload with two initial policies. -/
def wIntentP : IntentCreate :=
  { intent_code := "NEW", display_name := "New",
    policies := [wPolP, { wPolP with language_code := "en" }] }

/-- Witness for C8: creating an intent with two policies commits exactly
once. -/
theorem intent_create_single_commit_witness :
    (IntentService.createCommits wDbC3 "global" wIntentP).length = 1 := by
  obtain ⟨db2, obj, h1, h2, h3, h4, h5, h6, h7⟩ :=
    intent_create_single_commit wDbC3 "global" wIntentP (by decide)
  rw [h2]
  rfl

/-! ## C9 -/

/-- Shape of a successful Datasource service update: the returned object
is the row with the set payload fields assigned, and the datasources table
is the pointwise replacement of the rows carrying the fetched row's
primary key. -/
theorem ds_update_shape
    (db : Db) (tenant : String) (id : Nat) (p : DatasourceUpdate)
    (existing : Datasource) (db2 : Db) (obj : Datasource)
    (hex : DatasourceRepository.get_by_id db tenant id = some existing)
    (hok : DatasourceService.update db tenant id p = .ok (db2, obj)) :
    obj = applyDatasourceUpdate existing p ∧
    db2.datasources = db.datasources.map (fun d =>
      if d.datasource_id == existing.datasource_id
      then applyDatasourceUpdate existing p else d) := by
  unfold DatasourceService.update DatasourceRepository.update at hok
  rw [hex] at hok
  simp only [] at hok
  cases hck : p.connection_key with
  | none =>
    rw [hck] at hok
    simp only [Except.ok.injEq, Prod.mk.injEq] at hok
    obtain ⟨h1, h2⟩ := hok
    subst h1
    subst h2
    exact ⟨rfl, rfl⟩
  | some k =>
    rw [hck] at hok
    simp only [] at hok
    by_cases hkc : k ≠ "" ∧ k ≠ existing.connection_key
    · rw [if_pos hkc] at hok
      split at hok
      · split at hok
        · rename_i db2x sndx heq
          simp only [Except.ok.injEq, Prod.mk.injEq] at hok
          obtain ⟨h1, h2⟩ := hok
          subst h1
          subst h2
          unfold DatasourceConfigRepository.update at heq
          split at heq
          · simp at heq
          · simp only [Option.some.injEq, Prod.mk.injEq] at heq
            obtain ⟨h3, h4⟩ := heq
            subst h3
            exact ⟨rfl, rfl⟩
        · simp only [Except.ok.injEq, Prod.mk.injEq] at hok
          obtain ⟨h1, h2⟩ := hok
          subst h1
          subst h2
          exact ⟨rfl, rfl⟩
      · simp only [Except.ok.injEq, Prod.mk.injEq] at hok
        obtain ⟨h1, h2⟩ := hok
        subst h1
        subst h2
        exact ⟨rfl, rfl⟩
    · rw [if_neg hkc] at hok
      simp only [Except.ok.injEq, Prod.mk.injEq] at hok
      obtain ⟨h1, h2⟩ := hok
      subst h1
      subst h2
      exact ⟨rfl, rfl⟩

theorem cfg_update_shape
    (db : Db) (tenant : String) (cid : Nat) (p : DatasourceConfigUpdate)
    (existing : DatasourceConfig) (db2 : Db) (obj : DatasourceConfig)
    (hex : DatasourceConfigRepository.get_by_id db tenant cid = some existing)
    (hok : DatasourceConfigService.update db tenant cid p = .ok (db2, obj)) :
    obj = applyConfigUpdate existing p ∧
    db2.configs = db.configs.map (fun c =>
      if c.config_id == existing.config_id then applyConfigUpdate existing p else c) := by
  unfold DatasourceConfigService.update DatasourceConfigRepository.update at hok
  rw [hex] at hok
  simp only [] at hok
  split at hok
  · exact absurd hok (by simp)
  · split at hok
    · split at hok
      all_goals
        simp only [Except.ok.injEq, Prod.mk.injEq] at hok
        obtain ⟨h1, h2⟩ := hok
        subst h1
        subst h2
        exact ⟨rfl, rfl⟩
    · split at hok
      all_goals
        simp only [Except.ok.injEq, Prod.mk.injEq] at hok
        obtain ⟨h1, h2⟩ := hok
        subst h1
        subst h2
        exact ⟨rfl, rfl⟩

theorem intent_update_shape
    (db : Db) (tenant : String) (iid : Nat) (p : IntentUpdate)
    (existing : Intent) (db2 : Db) (obj : Intent)
    (hex : IntentRepository.get_by_id db tenant iid = some existing)
    (hok : IntentService.update db tenant iid p = .ok (db2, obj)) :
    obj = applyIntentUpdate existing p ∧
    db2.intents = db.intents.map (fun i =>
      if i.intent_id == existing.intent_id then applyIntentUpdate existing p else i) := by
  unfold IntentService.update IntentRepository.update at hok
  rw [hex] at hok
  simp only [Except.ok.injEq, Prod.mk.injEq] at hok
  obtain ⟨h1, h2⟩ := hok
  subst h1
  subst h2
  exact ⟨rfl, rfl⟩

theorem policy_update_shape
    (db : Db) (tenant : String) (iid : Nat) (lang : String) (p : IntentPolicyUpdate)
    (existing : IntentPolicy) (db2 : Db) (obj : IntentPolicy)
    (hex : IntentPolicyRepository.get_by_intent_and_language db tenant iid lang = some existing)
    (hok : IntentPolicyService.update db tenant iid lang p = .ok (db2, obj)) :
    obj = applyIntentPolicyUpdate existing p ∧
    db2.policies = db.policies.map (fun pol =>
      if pol.tenant_id == existing.tenant_id && pol.intent_id == existing.intent_id &&
          pol.language_code == existing.language_code
      then applyIntentPolicyUpdate existing p else pol) := by
  unfold IntentPolicyService.update IntentPolicyRepository.update at hok
  rw [hex] at hok
  simp only [Except.ok.injEq, Prod.mk.injEq] at hok
  obtain ⟨h1, h2⟩ := hok
  subst h1
  subst h2
  exact ⟨rfl, rfl⟩

theorem rule_update_shape
    (db : Db) (tenant : String) (rid : Nat) (p : ValidationRuleUpdate)
    (existing : ValidationRule) (db2 : Db) (obj : ValidationRule)
    (hex : ValidationRuleRepository.get_by_id db tenant rid = some existing)
    (hok : ValidationRuleService.update db tenant rid p = .ok (db2, obj)) :
    obj = applyValidationRuleUpdate existing p ∧
    db2.rules = db.rules.map (fun r =>
      if r.rule_id == existing.rule_id then applyValidationRuleUpdate existing p else r) := by
  unfold ValidationRuleService.update ValidationRuleService.update.update2
    ValidationRuleService.update.update3 ValidationRuleRepository.update at hok
  rw [hex] at hok
  simp only [] at hok
  repeat' split at hok
  all_goals
    first
      | (simp only [reduceCtorEq] at hok)
      | (simp only [Except.ok.injEq, Prod.mk.injEq] at hok
         obtain ⟨h1, h2⟩ := hok
         subst h1
         subst h2
         exact ⟨rfl, rfl⟩)


/-- C9: tenant_id is NOT immutable at the public update interface. For
each of the five entity kinds, a partial update whose payload includes
`tenant_id = t2` (with `t2` different from the path tenant) overwrites the
stored tenant_id with `t2`, and a subsequent get under the original tenant
answers NotFound for that entity. -/
theorem tenant_id_not_immutable_via_update :
    (∀ (db : Db) (tenant : String) (id : Nat) (p : DatasourceUpdate)
        (t2 : String) (db2 : Db) (obj : Datasource),
      p.tenant_id = some t2 → t2 ≠ tenant →
      DatasourceService.update db tenant id p = .ok (db2, obj) →
      obj.tenant_id = t2 ∧
      DatasourceService.get db2 tenant id = .error (.notFound "Datasource not found")) ∧
    (∀ (db : Db) (tenant : String) (cid : Nat) (p : DatasourceConfigUpdate)
        (t2 : String) (db2 : Db) (obj : DatasourceConfig),
      p.tenant_id = some t2 → t2 ≠ tenant →
      DatasourceConfigService.update db tenant cid p = .ok (db2, obj) →
      obj.tenant_id = t2 ∧
      DatasourceConfigService.get db2 tenant cid =
        .error (.notFound ("Datasource config with id " ++ toString cid ++ " not found"))) ∧
    (∀ (db : Db) (tenant : String) (iid : Nat) (p : IntentUpdate)
        (t2 : String) (db2 : Db) (obj : Intent),
      p.tenant_id = some t2 → t2 ≠ tenant →
      IntentService.update db tenant iid p = .ok (db2, obj) →
      obj.tenant_id = t2 ∧
      IntentService.get db2 tenant iid = .error (.notFound "Intent not found")) ∧
    (∀ (db : Db) (tenant : String) (iid : Nat) (lang : String) (p : IntentPolicyUpdate)
        (t2 : String) (db2 : Db) (obj : IntentPolicy),
      p.tenant_id = some t2 → t2 ≠ tenant →
      IntentPolicyService.update db tenant iid lang p = .ok (db2, obj) →
      obj.tenant_id = t2 ∧
      IntentPolicyService.get db2 tenant iid lang =
        .error (.notFound "Intent policy not found")) ∧
    (∀ (db : Db) (tenant : String) (rid : Nat) (p : ValidationRuleUpdate)
        (t2 : String) (db2 : Db) (obj : ValidationRule),
      p.tenant_id = some t2 → t2 ≠ tenant →
      ValidationRuleService.update db tenant rid p = .ok (db2, obj) →
      obj.tenant_id = t2 ∧
      ValidationRuleService.get db2 tenant rid =
        .error (.notFound ("Validation rule with id " ++ toString rid ++ " not found"))) := by
  refine ⟨?_, ?_, ?_, ?_, ?_⟩
  · intro db tenant id p t2 db2 obj hp hne hok
    cases hex : DatasourceRepository.get_by_id db tenant id with
    | none =>
      unfold DatasourceService.update at hok
      rw [hex] at hok
      simp only [reduceCtorEq] at hok
    | some existing =>
      obtain ⟨hobj, hds⟩ := ds_update_shape db tenant id p existing db2 obj hex hok
      have hexp := List.find?_some
        (show List.find? (fun d => d.tenant_id == tenant && d.datasource_id == id)
            db.datasources = some existing from hex)
      simp only [Bool.and_eq_true, beq_iff_eq] at hexp
      have hobjt : obj.tenant_id = t2 := by
        rw [hobj]
        simp [applyDatasourceUpdate, hp]
      refine ⟨hobjt, ?_⟩
      have h2t : (applyDatasourceUpdate existing p).tenant_id = t2 := by
        simp [applyDatasourceUpdate, hp]
      have hnone : DatasourceRepository.get_by_id db2 tenant id = none := by
        unfold DatasourceRepository.get_by_id
        rw [hds]
        refine find?_map_replace_none
          (fun d : Datasource => d.tenant_id == tenant && d.datasource_id == id)
          (fun d : Datasource => d.datasource_id == existing.datasource_id)
          db.datasources (applyDatasourceUpdate existing p) ?_ ?_
        · intro d hd
          simp only [Bool.and_eq_true, beq_iff_eq] at hd
          simp [hd.2, hexp.2]
        · simp [h2t, hne]
      unfold DatasourceService.get
      rw [hnone]
  · intro db tenant cid p t2 db2 obj hp hne hok
    cases hex : DatasourceConfigRepository.get_by_id db tenant cid with
    | none =>
      unfold DatasourceConfigService.update at hok
      rw [hex] at hok
      simp only [reduceCtorEq] at hok
    | some existing =>
      obtain ⟨hobj, hcf⟩ := cfg_update_shape db tenant cid p existing db2 obj hex hok
      have hexp := List.find?_some
        (show List.find? (fun c => c.tenant_id == tenant && c.config_id == cid)
            db.configs = some existing from hex)
      simp only [Bool.and_eq_true, beq_iff_eq] at hexp
      have hobjt : obj.tenant_id = t2 := by
        rw [hobj]
        simp [applyConfigUpdate, hp]
      refine ⟨hobjt, ?_⟩
      have h2t : (applyConfigUpdate existing p).tenant_id = t2 := by
        simp [applyConfigUpdate, hp]
      have hnone : DatasourceConfigRepository.get_by_id db2 tenant cid = none := by
        unfold DatasourceConfigRepository.get_by_id
        rw [hcf]
        refine find?_map_replace_none
          (fun c : DatasourceConfig => c.tenant_id == tenant && c.config_id == cid)
          (fun c : DatasourceConfig => c.config_id == existing.config_id)
          db.configs (applyConfigUpdate existing p) ?_ ?_
        · intro c hc
          simp only [Bool.and_eq_true, beq_iff_eq] at hc
          simp [hc.2, hexp.2]
        · simp [h2t, hne]
      unfold DatasourceConfigService.get
      rw [hnone]
  · intro db tenant iid p t2 db2 obj hp hne hok
    cases hex : IntentRepository.get_by_id db tenant iid with
    | none =>
      unfold IntentService.update IntentRepository.update at hok
      rw [hex] at hok
      simp only [reduceCtorEq] at hok
    | some existing =>
      obtain ⟨hobj, hin⟩ := intent_update_shape db tenant iid p existing db2 obj hex hok
      have hexp := List.find?_some
        (show List.find? (fun i => i.tenant_id == tenant && i.intent_id == iid)
            db.intents = some existing from hex)
      simp only [Bool.and_eq_true, beq_iff_eq] at hexp
      have hobjt : obj.tenant_id = t2 := by
        rw [hobj]
        simp [applyIntentUpdate, hp]
      refine ⟨hobjt, ?_⟩
      have h2t : (applyIntentUpdate existing p).tenant_id = t2 := by
        simp [applyIntentUpdate, hp]
      have hnone : IntentRepository.get_by_id db2 tenant iid = none := by
        unfold IntentRepository.get_by_id
        rw [hin]
        refine find?_map_replace_none
          (fun i : Intent => i.tenant_id == tenant && i.intent_id == iid)
          (fun i : Intent => i.intent_id == existing.intent_id)
          db.intents (applyIntentUpdate existing p) ?_ ?_
        · intro i hi
          simp only [Bool.and_eq_true, beq_iff_eq] at hi
          simp [hi.2, hexp.2]
        · simp [h2t, hne]
      unfold IntentService.get
      rw [hnone]
  · intro db tenant iid lang p t2 db2 obj hp hne hok
    cases hex : IntentPolicyRepository.get_by_intent_and_language db tenant iid lang with
    | none =>
      unfold IntentPolicyService.update IntentPolicyRepository.update at hok
      rw [hex] at hok
      simp only [reduceCtorEq] at hok
    | some existing =>
      obtain ⟨hobj, hpo⟩ := policy_update_shape db tenant iid lang p existing db2 obj hex hok
      have hexp := List.find?_some
        (show List.find? (fun pol => pol.tenant_id == tenant && pol.intent_id == iid &&
            pol.language_code == lang) db.policies = some existing from hex)
      simp only [Bool.and_eq_true, beq_iff_eq] at hexp
      have hobjt : obj.tenant_id = t2 := by
        rw [hobj]
        simp [applyIntentPolicyUpdate, hp]
      refine ⟨hobjt, ?_⟩
      have h2t : (applyIntentPolicyUpdate existing p).tenant_id = t2 := by
        simp [applyIntentPolicyUpdate, hp]
      have hnone : IntentPolicyRepository.get_by_intent_and_language db2 tenant iid lang = none := by
        unfold IntentPolicyRepository.get_by_intent_and_language
        rw [hpo]
        refine find?_map_replace_none
          (fun pol : IntentPolicy => pol.tenant_id == tenant && pol.intent_id == iid &&
            pol.language_code == lang)
          (fun pol : IntentPolicy => pol.tenant_id == existing.tenant_id &&
            pol.intent_id == existing.intent_id && pol.language_code == existing.language_code)
          db.policies (applyIntentPolicyUpdate existing p) ?_ ?_
        · intro pol hc
          simp only [Bool.and_eq_true, beq_iff_eq] at hc
          simp [hc.1.1, hc.1.2, hc.2, hexp.1.1, hexp.1.2, hexp.2]
        · simp [h2t, hne]
      unfold IntentPolicyService.get
      rw [hnone]
  · intro db tenant rid p t2 db2 obj hp hne hok
    cases hex : ValidationRuleRepository.get_by_id db tenant rid with
    | none =>
      unfold ValidationRuleService.update at hok
      rw [hex] at hok
      simp only [reduceCtorEq] at hok
    | some existing =>
      obtain ⟨hobj, hru⟩ := rule_update_shape db tenant rid p existing db2 obj hex hok
      have hexp := List.find?_some
        (show List.find? (fun r => r.tenant_id == tenant && r.rule_id == rid)
            db.rules = some existing from hex)
      simp only [Bool.and_eq_true, beq_iff_eq] at hexp
      have hobjt : obj.tenant_id = t2 := by
        rw [hobj]
        simp [applyValidationRuleUpdate, hp]
      refine ⟨hobjt, ?_⟩
      have h2t : (applyValidationRuleUpdate existing p).tenant_id = t2 := by
        simp [applyValidationRuleUpdate, hp]
      have hnone : ValidationRuleRepository.get_by_id db2 tenant rid = none := by
        unfold ValidationRuleRepository.get_by_id
        rw [hru]
        refine find?_map_replace_none
          (fun r : ValidationRule => r.tenant_id == tenant && r.rule_id == rid)
          (fun r : ValidationRule => r.rule_id == existing.rule_id)
          db.rules (applyValidationRuleUpdate existing p) ?_ ?_
        · intro r hr
          simp only [Bool.and_eq_true, beq_iff_eq] at hr
          simp [hr.2, hexp.2]
        · simp [h2t, hne]
      unfold ValidationRuleService.get
      rw [hnone]

/-- Policy row (global, intent 5, language multi) for the C9 witness. -/
def wPol5 : IntentPolicy :=
  { tenant_id := "global", intent_id := 5, language_code := "multi",
    n8n_orchestration_url := none, auto_process_min_conf := 90,
    manual_review_min_conf := 50, reroute_email := none,
    multi_intent_mode := "STRICT_SINGLE", allow_multi_auto := false,
    allow_subset_auto := false }

/-- Concrete state with intent 5 and its `multi` policy. -/
def wDbC9 : Db :=
  { datasources := [], configs := [], intents := [wIntent5], policies := [wPol5], rules := [] }

/-- Witness for C9: after each entity kind is moved to tenant `t2` by an
update carrying `tenant_id`, a get under the original tenant `global`
answers NotFound. -/
theorem tenant_id_not_immutable_via_update_witness :
    DatasourceService.get { wDbC4 with datasources := [{ wDs1 with tenant_id := "t2" }] }
      "global" 1 = .error (.notFound "Datasource not found") ∧
    DatasourceConfigService.get { wDbC4 with configs := [{ wCfgOld with tenant_id := "t2" }] }
      "global" 1 =
      .error (.notFound ("Datasource config with id " ++ toString 1 ++ " not found")) ∧
    IntentService.get { wDbC3 with intents := [{ wIntent5 with tenant_id := "t2" }] }
      "global" 5 = .error (.notFound "Intent not found") ∧
    IntentPolicyService.get { wDbC9 with policies := [{ wPol5 with tenant_id := "t2" }] }
      "global" 5 "multi" = .error (.notFound "Intent policy not found") ∧
    ValidationRuleService.get
      { wDbC7 with rules := [{ wRule1 with tenant_id := "t2" }, wRule2, wRule3] }
      "global" 1 =
      .error (.notFound ("Validation rule with id " ++ toString 1 ++ " not found")) := by
  refine ⟨?_, ?_, ?_, ?_, ?_⟩
  · exact (tenant_id_not_immutable_via_update.1 wDbC4 "global" 1 { tenant_id := some "t2" }
      "t2" { wDbC4 with datasources := [{ wDs1 with tenant_id := "t2" }] }
      { wDs1 with tenant_id := "t2" } rfl (by decide) (by decide)).2
  · exact (tenant_id_not_immutable_via_update.2.1 wDbC4 "global" 1 { tenant_id := some "t2" }
      "t2" { wDbC4 with configs := [{ wCfgOld with tenant_id := "t2" }] }
      { wCfgOld with tenant_id := "t2" } rfl (by decide) (by decide)).2
  · exact (tenant_id_not_immutable_via_update.2.2.1 wDbC3 "global" 5 { tenant_id := some "t2" }
      "t2" { wDbC3 with intents := [{ wIntent5 with tenant_id := "t2" }] }
      { wIntent5 with tenant_id := "t2" } rfl (by decide) (by decide)).2
  · exact (tenant_id_not_immutable_via_update.2.2.2.1 wDbC9 "global" 5 "multi"
      { tenant_id := some "t2" } "t2"
      { wDbC9 with policies := [{ wPol5 with tenant_id := "t2" }] }
      { wPol5 with tenant_id := "t2" } rfl (by decide) (by decide)).2
  · exact (tenant_id_not_immutable_via_update.2.2.2.2 wDbC7 "global" 1 { tenant_id := some "t2" }
      "t2" { wDbC7 with rules := [{ wRule1 with tenant_id := "t2" }, wRule2, wRule3] }
      { wRule1 with tenant_id := "t2" } rfl (by decide) (by decide)).2

/-! ## C10 -/

/-- Config named `KOLD` (id 1) in tenant `global`. -/
def wCfgKold : DatasourceConfig := { wCfg1 with config_id := 1, name := "KOLD" }

/-- Config named `KNEW` (id 2) in the same tenant. -/
def wCfgKnew : DatasourceConfig := { wCfg1 with config_id := 2, name := "KNEW" }

/-- Datasource keyed `KOLD` in tenant `global`. -/
def wDsKold : Datasource := { wDs1 with connection_key := "KOLD" }

/-- Concrete state where the rename target name is already taken. -/
def wDbC10 : Db :=
  { datasources := [wDsKold], configs := [wCfgKold, wCfgKnew], intents := [],
    policies := [], rules := [] }

/-- C10: at a state where a distinct config named `KNEW` already exists,
the config rename triggered by a Datasource update (connection_key
`KOLD` to `KNEW`) goes through the repository with no uniqueness
pre-check: it succeeds and leaves TWO configs named `KNEW`; the direct
DatasourceConfig update of the same rename is rejected with
AlreadyExists before writing. -/
theorem datasource_update_rename_skips_uniqueness_check :
    (DatasourceService.update wDbC10 "global" 1 { connection_key := some "KNEW" }).map
      (fun r => r.1.configs.map (fun c => c.name)) = .ok ["KNEW", "KNEW"] ∧
    DatasourceConfigService.update wDbC10 "global" 1 { name := some "KNEW" } =
      .error (.alreadyExists "Datasource config with name KNEW already exists") := by decide
